import Mathlib

/-!
Shallow embedding of the mission-control core: the reconciliation engine
(`src/lib/reconcile.ts`) and the OpenClaw gateway WebSocket client
(`src/lib/openclaw/client.ts`).  Pure data is translated directly; the
stateful parts (module-level debounce cache, the client's pending-request
table, the connect-attempt handlers) are embedded as explicit state passing
and event-step functions.  JavaScript truthiness on optional strings is
modelled by `truthyStr`.
-/

namespace MissionControl

/-- `if (x)` on an optional string in JS: truthy iff present and non-empty. -/
def truthyStr : Option String → Bool
  | some s => s != ""
  | none => false

/-! ## Reconciliation engine data model (`reconcile.ts`) -/

/-- A gateway session as returned by `sessions.list` (`OpenClawSessionInfo`):
only the fields the reconciler reads. -/
structure GwSession where
  id : String
  key : Option String
deriving DecidableEq, Repr

/-- A row of the `openclaw_sessions` table (fields the reconciler touches). -/
structure DbSession where
  id : String
  agent_id : String
  openclaw_session_id : String
  task_id : Option String
  status : String
  ended_at : Option String
  updated_at : String
deriving DecidableEq, Repr

/-- A row of the `tasks` table (fields the reconciler touches). -/
structure DbTask where
  id : String
  status : String
  assigned_agent_id : Option String
  dispatch_error : Option String
  updated_at : String
deriving DecidableEq, Repr

/-- A row of the `agents` table (fields the reconciler touches). -/
structure DbAgent where
  id : String
  status : String
  updated_at : String
deriving DecidableEq, Repr

/-- The local store: the three tables the reconciler reads and writes. -/
structure Db where
  sessions : List DbSession
  tasks : List DbTask
  agents : List DbAgent
deriving DecidableEq, Repr

/-- `ReconcileResult` from `reconcile.ts`. -/
structure ReconcileResult where
  ran : Bool
  sessionsEnded : Nat
  tasksErrored : Nat
  agentsReset : Nat
  sessionsBackfilled : Nat
  error : Option String
deriving DecidableEq, Repr

/-- `gatewayById.has(x)`: the id map is populated unconditionally. -/
def gwIdHas (gws : List GwSession) (x : String) : Bool :=
  gws.any (fun s => s.id == x)

/-- `gatewayByKey.has(x)`: the key map is populated only for truthy keys. -/
def gwKeyHas (gws : List GwSession) (x : String) : Bool :=
  gws.any (fun s =>
    match s.key with
    | some k => (k != "") && (k == x)
    | none => false)

/-- The derived routing key: `` `agent:main:${id}` ``. -/
def sessionKey (osid : String) : String := "agent:main:" ++ osid

/-- The `onGateway` predicate of `reconcile.ts` (lines 96-99): id hit,
key hit on the derived key, or id hit on the derived key. -/
def gwMatch (gws : List GwSession) (osid : String) : Bool :=
  gwIdHas gws osid || gwKeyHas gws (sessionKey osid) || gwIdHas gws (sessionKey osid)

/-- `UPDATE openclaw_sessions SET status='ended', ended_at=?, updated_at=? WHERE id=?`. -/
def endSession (db : Db) (sid nowIso : String) : Db :=
  { db with sessions := db.sessions.map (fun s =>
      if s.id == sid then { s with status := "ended", ended_at := some nowIso, updated_at := nowIso }
      else s) }

/-- Row transform of the guarded dispatch-error update. -/
def setTaskErrUpd (tid msg nowIso : String) (t : DbTask) : DbTask :=
  if t.id == tid && t.dispatch_error.isNone then
    { t with dispatch_error := some msg, updated_at := nowIso }
  else t

/-- `UPDATE tasks SET dispatch_error=?, updated_at=? WHERE id=? AND dispatch_error IS NULL`. -/
def setTaskErrIfNull (db : Db) (tid msg nowIso : String) : Db :=
  { db with tasks := db.tasks.map (setTaskErrUpd tid msg nowIso) }

/-- `queryOne('SELECT * FROM tasks WHERE id = ?')`. -/
def queryTask (db : Db) (tid : String) : Option DbTask :=
  db.tasks.find? (fun t => t.id == tid)

/-- `UPDATE openclaw_sessions SET task_id=?, updated_at=? WHERE id=?`. -/
def backfillTask (db : Db) (sid tid nowIso : String) : Db :=
  { db with sessions := db.sessions.map (fun s =>
      if s.id == sid then { s with task_id := some tid, updated_at := nowIso }
      else s) }

/-- `UPDATE agents SET status='standby', updated_at=? WHERE id=?`. -/
def resetAgent (db : Db) (aid nowIso : String) : Db :=
  { db with agents := db.agents.map (fun a =>
      if a.id == aid then { a with status := "standby", updated_at := nowIso }
      else a) }

/-- Error text written in step C. -/
def sessionLostMsg : String := "Session lost — agent no longer running on gateway"

/-- Error text written in step D. -/
def agentLostMsg : String := "Agent session lost"

/-- State threaded through the reconciliation transaction: the store, the
result counters, and the `tasksToNotify` accumulator. -/
structure RecState where
  db : Db
  result : ReconcileResult
  notify : List DbTask
deriving DecidableEq, Repr

/-- Step C of `reconcile.ts` (lines 94-121), one active-session iteration:
end sessions the gateway no longer knows, flag their linked task. -/
def stepCOne (gws : List GwSession) (nowIso : String) (st : RecState) (s : DbSession) : RecState :=
  if gwMatch gws s.openclaw_session_id then st
  else
    let db1 := endSession st.db s.id nowIso
    let r1 := { st.result with sessionsEnded := st.result.sessionsEnded + 1 }
    if truthyStr s.task_id then
      let tid := s.task_id.getD ""
      let db2 := setTaskErrIfNull db1 tid sessionLostMsg nowIso
      match queryTask db2 tid with
      | some fl =>
        if truthyStr fl.dispatch_error then
          { db := db2, result := { r1 with tasksErrored := r1.tasksErrored + 1 },
            notify := st.notify ++ [fl] }
        else { db := db2, result := r1, notify := st.notify }
      | none => { db := db2, result := r1, notify := st.notify }
    else { st with db := db1, result := r1 }

/-- Step D of `reconcile.ts` (lines 124-149), one in-progress-task iteration:
flag tasks whose agent has no gateway-confirmed active session in the
pre-transaction snapshot. -/
def stepDOne (gws : List GwSession) (activeSnapshot : List DbSession) (nowIso : String)
    (st : RecState) (t : DbTask) : RecState :=
  if ¬ truthyStr t.assigned_agent_id then st
  else if truthyStr t.dispatch_error then st
  else if activeSnapshot.any (fun s =>
      (some s.agent_id == t.assigned_agent_id) && s.status == "active"
        && gwMatch gws s.openclaw_session_id) then st
  else
    let db2 := setTaskErrIfNull st.db t.id agentLostMsg nowIso
    match queryTask db2 t.id with
    | some fl =>
      if truthyStr fl.dispatch_error then
        { db := db2, result := { st.result with tasksErrored := st.result.tasksErrored + 1 },
          notify := st.notify ++ [fl] }
      else { st with db := db2 }
    | none => { st with db := db2 }

/-- Step E of `reconcile.ts` (lines 152-163), one active-session iteration:
backfill a missing task pointer from the agent's first in-progress/assigned
task found in the snapshot. -/
def stepEOne (inProg : List DbTask) (nowIso : String) (st : RecState) (s : DbSession) : RecState :=
  if truthyStr s.task_id then st
  else
    match inProg.find? (fun t => t.assigned_agent_id == some s.agent_id) with
    | some t =>
      { st with
        db := backfillTask st.db s.id t.id nowIso,
        result := { st.result with sessionsBackfilled := st.result.sessionsBackfilled + 1 } }
    | none => st

/-- Step F of `reconcile.ts` (lines 166-182), one working-agent iteration:
reset agents with neither a gateway-confirmed active session nor an
in-progress/assigned task. -/
def stepFOne (gws : List GwSession) (activeSnapshot : List DbSession) (inProg : List DbTask)
    (nowIso : String) (st : RecState) (a : DbAgent) : RecState :=
  let hasActive := activeSnapshot.any (fun s =>
    s.agent_id == a.id && s.status == "active" && gwMatch gws s.openclaw_session_id)
  let hasTask := inProg.any (fun t => t.assigned_agent_id == some a.id)
  if !hasActive && !hasTask then
    { st with
      db := resetAgent st.db a.id nowIso,
      result := { st.result with agentsReset := st.result.agentsReset + 1 } }
  else st

/-- The body of `transaction(() => {...})` in `reconcile.ts`: steps C-F in
order, each iterating over the pre-transaction snapshots. -/
def runTransaction (gws : List GwSession) (activeSnapshot : List DbSession)
    (inProg : List DbTask) (working : List DbAgent) (nowIso : String) (st0 : RecState) : RecState :=
  let st1 := activeSnapshot.foldl (stepCOne gws nowIso) st0
  let st2 := inProg.foldl (stepDOne gws activeSnapshot nowIso) st1
  let st3 := activeSnapshot.foldl (stepEOne inProg nowIso) st2
  working.foldl (stepFOne gws activeSnapshot inProg nowIso) st3

/-- The fresh result object built at the top of `reconcile()`. -/
def initResult : ReconcileResult :=
  { ran := true, sessionsEnded := 0, tasksErrored := 0, agentsReset := 0,
    sessionsBackfilled := 0, error := none }

/-- Everything `reconcile()` observes and produces in one call, so the
module-level debounce cell (`lastRunAt`, `cachedResult`) is explicit state:
the returned result, the store afterwards, the `broadcast` calls issued
after the transaction, the new debounce cell, and whether the gateway
fetch step was reached at all. -/
structure ReconcileOutcome where
  result : ReconcileResult
  db : Db
  broadcasts : List DbTask
  lastRunAt : Int
  cached : Option ReconcileResult
  fetchedGateway : Bool
deriving DecidableEq, Repr

/-- `reconcile()` past the debounce check.  `gateway` is the outcome of the
connect-and-`listSessions` block (its `catch` argument's message on
failure).  `txError`, when present, is an error raised inside the
local-store transaction; the transaction collaborator is not under `src/`,
so per the spec it aborts all-or-nothing (nothing written) and, having no
surrounding `catch` in `reconcile()`, the error propagates
(`Except.error`).  `endNow` is the `Date.now()` taken at line 203. -/
def reconcileBody (lastRunAt : Int) (cached : Option ReconcileResult)
    (gateway : Except String (List GwSession)) (txError : Option String)
    (nowIso : String) (endNow : Int) (db : Db) : Except String ReconcileOutcome :=
  match gateway with
  | .error msg =>
    .ok { result := { initResult with ran := false, error := some msg }, db := db,
          broadcasts := [], lastRunAt := lastRunAt, cached := cached, fetchedGateway := true }
  | .ok gws =>
    match txError with
    | some e => .error e
    | none =>
      let activeSnapshot := db.sessions.filter (fun s => s.status == "active")
      let inProg := db.tasks.filter (fun t => t.status == "in_progress" || t.status == "assigned")
      let working := db.agents.filter (fun a => a.status == "working")
      let st := runTransaction gws activeSnapshot inProg working nowIso
        { db := db, result := initResult, notify := [] }
      .ok { result := st.result, db := st.db, broadcasts := st.notify,
            lastRunAt := endNow, cached := some st.result, fetchedGateway := true }

/-- `reconcile()` (`reconcile.ts` lines 34-206), with the module-level
debounce cell passed in as `lastRunAt`/`cached` and returned in the
outcome. -/
def reconcile (now lastRunAt : Int) (cached : Option ReconcileResult)
    (gateway : Except String (List GwSession)) (txError : Option String)
    (nowIso : String) (endNow : Int) (db : Db) : Except String ReconcileOutcome :=
  match cached with
  | some c =>
    if now - lastRunAt < 30000 then
      .ok { result := { c with ran := false }, db := db, broadcasts := [],
            lastRunAt := lastRunAt, cached := some c, fetchedGateway := false }
    else reconcileBody lastRunAt (some c) gateway txError nowIso endNow db
  | none => reconcileBody lastRunAt none gateway txError nowIso endNow db

/-! ## Gateway client: request correlation (`client.ts` `handleMessage`,
`call`, and the per-request timeout) -/

/-- An incoming frame after `JSON.parse`, restricted to the fields
`handleMessage` inspects.  Absent JSON fields are `none`; `errorMsg` is
`error.message` of a present `error` object (an object is always truthy). -/
structure Frame where
  type : Option String
  id : Option String
  ok : Option Bool
  errorMsg : Option String
  payload : Option String
  result : Option String
  method : Option String
  params : Option String
deriving DecidableEq, Repr

/-- Observable effects of the message handler and the request timeout:
settling a pending promise, or emitting notification events. -/
inductive Action where
  | resolve (id : String) (value : Option String)
  | reject (id : String) (msg : String)
  | notifyAll (f : Frame)
  | notifyMethod (method : String) (params : Option String)
deriving DecidableEq, Repr

/-- Which pending request (if any) an action settles. -/
def settleTarget : Action → Option String
  | .resolve i _ => some i
  | .reject i _ => some i
  | _ => none

/-- The pending-request table (`pendingRequests` map keys; the continuations
become `Action`s).  Request ids are UUIDs, hence distinct. -/
structure RpcState where
  pendingRequests : List String
deriving DecidableEq, Repr

/-- Fall-through of `handleMessage` when no pending id matched:
`if (data.method)` emits the generic notification and the method event. -/
def notifyOnly (st : RpcState) (f : Frame) : RpcState × List Action :=
  if truthyStr f.method then
    (st, [Action.notifyAll f, Action.notifyMethod (f.method.getD "") f.params])
  else (st, [])

/-- The legacy-response branch of `handleMessage` (`client.ts` lines
184-196) followed by the notification branch. -/
def legacyAndNotify (st : RpcState) (f : Frame) : RpcState × List Action :=
  match f.id with
  | some lid =>
    if lid ∈ st.pendingRequests then
      let st' : RpcState := { pendingRequests := st.pendingRequests.erase lid }
      if f.errorMsg.isSome then (st', [Action.reject lid (f.errorMsg.getD "")])
      else (st', [Action.resolve lid f.result])
    else notifyOnly st f
  | none => notifyOnly st f

/-- `handleMessage` (`client.ts` lines 166-203).  The `type:'res'` branch
returns only when a pending entry matched; otherwise control falls through
to the legacy branch and then the notification branch. -/
def handleMessage (st : RpcState) (f : Frame) : RpcState × List Action :=
  match f.id with
  | some rid =>
    if f.type == some "res" then
      if rid ∈ st.pendingRequests then
        let st' : RpcState := { pendingRequests := st.pendingRequests.erase rid }
        if f.ok == some false && f.errorMsg.isSome then
          (st', [Action.reject rid (f.errorMsg.getD "")])
        else (st', [Action.resolve rid f.payload])
      else legacyAndNotify st f
    else legacyAndNotify st f
  | none => legacyAndNotify st f

/-- The 30-second timeout closure registered by `call()` (`client.ts` lines
234-239): it captures `id` and `method`, and acts only if the entry is
still pending. -/
def requestTimeout (st : RpcState) (id method : String) : RpcState × List Action :=
  if id ∈ st.pendingRequests then
    ({ pendingRequests := st.pendingRequests.erase id },
     [Action.reject id ("Request timeout: " ++ method)])
  else (st, [])

/-- The synchronous head of `call()` (`client.ts` lines 222-231): throws
unless a socket handle exists and both flags hold, else registers the
fresh request id. -/
def callStart (wsPresent conn auth : Bool) (st : RpcState) (id : String) :
    Except String RpcState :=
  if !wsPresent || !conn || !auth then .error "Not connected to OpenClaw Gateway"
  else .ok { pendingRequests := st.pendingRequests ++ [id] }

/-! ## Gateway client: one connection attempt (`client.ts` `connect`) -/

/-- State of a single connection attempt: the flags the handlers mutate,
whether the 10-second `connectionTimeout` is still armed (`clearTimeout`
disarms it), whether `ws.close()` was invoked, whether the auth
`PendingRequest` is registered, and the settlement of the `connect()`
promise (`none` while unsettled; later settlements are no-ops). -/
structure ConnAttempt where
  connected : Bool
  authenticated : Bool
  timerArmed : Bool
  socketClosed : Bool
  authPending : Bool
  settled : Option (Option String)
deriving DecidableEq, Repr

/-- Settle the attempt promise with a rejection message; a no-op if the
promise is already settled (JS promise semantics). -/
def settleRej (st : ConnAttempt) (msg : String) : ConnAttempt :=
  if st.settled.isSome then st else { st with settled := some (some msg) }

/-- Settle the attempt promise with success; no-op if already settled. -/
def settleRes (st : ConnAttempt) : ConnAttempt :=
  if st.settled.isSome then st else { st with settled := some none }

/-- The state right after `new WebSocket(...)` and `setTimeout(...)`: timer
armed, nothing settled. -/
def connInit : ConnAttempt :=
  { connected := false, authenticated := false, timerArmed := true,
    socketClosed := false, authPending := false, settled := none }

/-- Events a connection attempt can observe before its timer fires. -/
inductive CEv where
  | sockOpen
  | sockClose
  | sockError
  | challenge
  | authOk
  | authErr (msg : String)
deriving DecidableEq, Repr

/-- One handler invocation of the attempt (`client.ts` lines 69-156):
`onopen`/`onclose`/`onerror` all `clearTimeout(connectionTimeout)`;
the challenge registers the auth `PendingRequest`; resolving it flips
`connected`/`authenticated` and resolves `connect()`; rejecting it closes
the socket and rejects `connect()`. -/
def connStep (st : ConnAttempt) (e : CEv) : ConnAttempt :=
  match e with
  | .sockOpen => { st with timerArmed := false }
  | .sockClose => { st with timerArmed := false, connected := false, authenticated := false }
  | .sockError =>
    let st1 := { st with timerArmed := false }
    if !st1.connected then settleRej st1 "Failed to connect to OpenClaw Gateway" else st1
  | .challenge => { st with authPending := true }
  | .authOk =>
    if st.authPending then
      settleRes { st with connected := true, authenticated := true, authPending := false }
    else st
  | .authErr msg =>
    if st.authPending then
      settleRej { st with socketClosed := true, authPending := false }
        ("Authentication failed: " ++ msg)
    else st

/-- Run a list of events through the attempt handlers. -/
def runEvents (st : ConnAttempt) (evs : List CEv) : ConnAttempt :=
  evs.foldl connStep st

/-- The 10-second mark: the `connectionTimeout` callback (`client.ts` lines
62-67) runs only if no `clearTimeout` disarmed it; it closes the socket
and rejects with `Connection timeout` unless `connected` is already set. -/
def fireTimer (st : ConnAttempt) : ConnAttempt :=
  if st.timerArmed then
    if !st.connected then settleRej { st with socketClosed := true } "Connection timeout"
    else st
  else st

/-! ## Gateway client: the connect() entry and its in-flight lock -/

/-- What a `connect()` caller gets back synchronously: the already-connected
early return, the shared in-flight attempt promise, or a freshly started
attempt's promise.  Two callers holding the same attempt id share one
promise and therefore observe the same outcome. -/
inductive ConnectRet where
  | immediate
  | joined (k : Nat)
  | started (k : Nat)
deriving DecidableEq, Repr

/-- Client-level state seen by the synchronous part of `connect()`:
the `connected` flag, whether the socket handle exists and is OPEN, the
`connecting` lock (the in-flight attempt's id), and an instrumentation
count of sockets opened by `new WebSocket(...)`. -/
structure ConnLock where
  connected : Bool
  wsOpen : Bool
  connecting : Option Nat
  socketsOpened : Nat
  nextAttemptId : Nat
deriving DecidableEq, Repr

/-- The synchronous part of `connect()` (`client.ts` lines 27-64): early
return when connected with an OPEN socket; join the in-flight attempt when
the `connecting` lock is held; otherwise take the lock and open exactly
one fresh socket. -/
def connectCall (st : ConnLock) : ConnLock × ConnectRet :=
  if st.connected && st.wsOpen then (st, .immediate)
  else
    match st.connecting with
    | some k => (st, .joined k)
    | none =>
      let k := st.nextAttemptId
      ({ st with
          connecting := some k,
          socketsOpened := st.socketsOpened + 1,
          nextAttemptId := k + 1 }, .started k)

/-- `n` back-to-back `connect()` calls with no intervening socket events,
returning the final state and each caller's return. -/
def connectSeq : ConnLock → Nat → ConnLock × List ConnectRet
  | st, 0 => (st, [])
  | st, n + 1 =>
    let p := connectCall st
    let q := connectSeq p.1 n
    (q.1, p.2 :: q.2)

/-! ## Relations used by the invariant statements -/

/-- One task row preserves an already-set dispatch-error: the id is kept and
any present error text survives unchanged. -/
def ErrPreserve (t tNew : DbTask) : Prop :=
  tNew.id = t.id ∧ ∀ e, t.dispatch_error = some e → tNew.dispatch_error = some e

/-- Row-by-row dispatch-error preservation between two task tables. -/
def TasksPreserve (old new : List DbTask) : Prop :=
  List.Forall₂ ErrPreserve old new

/-! ## Concrete inputs used by the scenario theorems and witnesses -/

/-- A fixed wall-clock ISO string for concrete runs. -/
def iso0 : String := "2026-02-04T10:00:00.000Z"

/-- An empty local store. -/
def dbEmpty : Db := { sessions := [], tasks := [], agents := [] }

/-- Scenario session `S`: active, owned by agent `A`, linked to task `T`. -/
def sessC1 : DbSession :=
  { id := "S", agent_id := "A", openclaw_session_id := "g1", task_id := some "T",
    status := "active", ended_at := none, updated_at := "t0" }

/-- Scenario task `T` with no dispatch-error yet (status outside the
in-progress/assigned set, as the expected `agentsReset = 1` requires). -/
def taskC1 : DbTask :=
  { id := "T", status := "review", assigned_agent_id := some "A",
    dispatch_error := none, updated_at := "t0" }

/-- Scenario agent `A`, currently `working`. -/
def agentC1 : DbAgent := { id := "A", status := "working", updated_at := "t0" }

/-- The end-to-end scenario store: one active session, one task, one agent. -/
def dbC1 : Db := { sessions := [sessC1], tasks := [taskC1], agents := [agentC1] }

/-- Like the end-to-end scenario but task `T` is `in_progress` and assigned
to `A` (the configuration exercising reconcile step D). -/
def taskC5 : DbTask := { taskC1 with status := "in_progress" }

/-- Store for the double-count run: active session `S` linked to the
in-progress task `T` of working agent `A`. -/
def dbC5 : Db := { sessions := [sessC1], tasks := [taskC5], agents := [agentC1] }

/-- An active session with no linked task pointer. -/
def sessC4 : DbSession := { sessC1 with task_id := none }

/-- First in-progress task of agent `A`. -/
def t41 : DbTask :=
  { id := "T1", status := "in_progress", assigned_agent_id := some "A",
    dispatch_error := none, updated_at := "t0" }

/-- Second in-progress task of the same agent `A`. -/
def t42 : DbTask := { t41 with id := "T2" }

/-- Gateway still runs the session, so only the backfill step acts. -/
def gwC4 : GwSession := { id := "g1", key := none }

/-- Store where agent `A` has two in-progress tasks and a pointerless
active session. -/
def dbC4 : Db := { sessions := [sessC4], tasks := [t41, t42], agents := [] }

/-- Transaction state at entry to the backfill-step witness. -/
def stW4 : RecState := { db := dbC4, result := initResult, notify := [] }

/-- The outcome of the cached full run used by the debounce witness. -/
def out8 : ReconcileOutcome :=
  { result := initResult, db := dbEmpty, broadcasts := [], lastRunAt := 100500,
    cached := some initResult, fetchedGateway := true }

/-- A store holding a task that already carries a dispatch-error. -/
def dbW6 : Db :=
  { sessions := [],
    tasks := [{ id := "TX", status := "inbox", assigned_agent_id := none,
                dispatch_error := some "boom", updated_at := "t0" }],
    agents := [] }

/-- The outcome of the run used by the preservation witness. -/
def outW6 : ReconcileOutcome :=
  { result := initResult, db := dbW6, broadcasts := [], lastRunAt := 100500,
    cached := some initResult, fetchedGateway := true }

/-- A `type:'res'` response frame carrying the given correlation id. -/
def mkResFrame (id : String) (okv : Option Bool) (ev p r : Option String) : Frame :=
  { type := some "res", id := some id, ok := okv, errorMsg := ev,
    payload := p, result := r, method := none, params := none }

/-- A pending-request table holding two outstanding ids. -/
def rpcW : RpcState := { pendingRequests := ["a", "b"] }

/-- The table after request `a` was already settled. -/
def rpcDoneW : RpcState := { pendingRequests := ["b"] }

/-- Client-level state of a disconnected client with no attempt in flight. -/
def stW9 : ConnLock :=
  { connected := false, wsOpen := false, connecting := none,
    socketsOpened := 0, nextAttemptId := 7 }

/-! ## Helper lemmas -/

theorem errPreserve_refl (t : DbTask) : ErrPreserve t t :=
  ⟨rfl, fun _ h => h⟩

theorem errPreserve_trans {a b c : DbTask} (h1 : ErrPreserve a b) (h2 : ErrPreserve b c) :
    ErrPreserve a c :=
  ⟨h2.1.trans h1.1, fun e he => h2.2 e (h1.2 e he)⟩

theorem tasksPreserve_refl (l : List DbTask) : TasksPreserve l l := by
  induction l with
  | nil => exact List.Forall₂.nil
  | cons t ts ih => exact List.Forall₂.cons (errPreserve_refl t) ih

theorem tasksPreserve_trans {l1 l2 l3 : List DbTask}
    (h1 : TasksPreserve l1 l2) (h2 : TasksPreserve l2 l3) : TasksPreserve l1 l3 := by
  induction h1 generalizing l3 with
  | nil => cases h2; exact List.Forall₂.nil
  | cons hab h ih =>
    cases h2 with
    | cons hbc h' => exact List.Forall₂.cons (errPreserve_trans hab hbc) (ih h')

theorem tasksPreserve_map (f : DbTask → DbTask) (hf : ∀ t, ErrPreserve t (f t))
    (l : List DbTask) : TasksPreserve l (l.map f) := by
  induction l with
  | nil => exact List.Forall₂.nil
  | cons t ts ih => exact List.Forall₂.cons (hf t) ih

/-- A reflexive-transitive relation carries over any left fold whose single
step respects it. -/
theorem foldl_rel {α β : Type} (R : β → β → Prop) (f : β → α → β)
    (hrefl : ∀ b, R b b) (htrans : ∀ a b c, R a b → R b c → R a c)
    (hstep : ∀ b x, R b (f b x)) : ∀ (l : List α) (b : β), R b (l.foldl f b) := by
  intro l
  induction l with
  | nil => intro b; exact hrefl b
  | cons x xs ih => intro b; exact htrans _ _ _ (hstep b x) (ih (f b x))

theorem setTaskErrUpd_errPreserve (tid msg nowIso : String) (t : DbTask) :
    ErrPreserve t (setTaskErrUpd tid msg nowIso t) := by
  unfold setTaskErrUpd
  split
  · next hcond =>
    refine ⟨rfl, fun e he => ?_⟩
    rw [Bool.and_eq_true] at hcond
    rw [he] at hcond
    simp [Option.isNone] at hcond
  · exact errPreserve_refl t

theorem setTaskErrIfNull_preserve (db : Db) (tid msg nowIso : String) :
    TasksPreserve db.tasks (setTaskErrIfNull db tid msg nowIso).tasks :=
  tasksPreserve_map _ (setTaskErrUpd_errPreserve tid msg nowIso) db.tasks

theorem endSession_tasks (db : Db) (sid nowIso : String) :
    (endSession db sid nowIso).tasks = db.tasks := rfl

theorem backfillTask_tasks (db : Db) (sid tid nowIso : String) :
    (backfillTask db sid tid nowIso).tasks = db.tasks := rfl

theorem resetAgent_tasks (db : Db) (aid nowIso : String) :
    (resetAgent db aid nowIso).tasks = db.tasks := rfl

/-- The per-row relation lifted to transaction states. -/
def RecPreserve (a b : RecState) : Prop := TasksPreserve a.db.tasks b.db.tasks

theorem stepCOne_preserve (gws : List GwSession) (nowIso : String) (st : RecState)
    (s : DbSession) : RecPreserve st (stepCOne gws nowIso st s) := by
  unfold RecPreserve stepCOne
  dsimp only
  split
  · exact tasksPreserve_refl _
  · split
    · split
      · split
        · exact setTaskErrIfNull_preserve _ _ _ _
        · exact setTaskErrIfNull_preserve _ _ _ _
      · exact setTaskErrIfNull_preserve _ _ _ _
    · exact tasksPreserve_refl _

theorem stepDOne_preserve (gws : List GwSession) (activeSnapshot : List DbSession)
    (nowIso : String) (st : RecState) (t : DbTask) :
    RecPreserve st (stepDOne gws activeSnapshot nowIso st t) := by
  unfold RecPreserve stepDOne
  dsimp only
  split
  · exact tasksPreserve_refl _
  · split
    · exact tasksPreserve_refl _
    · split
      · exact tasksPreserve_refl _
      · split
        · split
          · exact setTaskErrIfNull_preserve _ _ _ _
          · exact setTaskErrIfNull_preserve _ _ _ _
        · exact setTaskErrIfNull_preserve _ _ _ _

theorem stepEOne_preserve (inProg : List DbTask) (nowIso : String) (st : RecState)
    (s : DbSession) : RecPreserve st (stepEOne inProg nowIso st s) := by
  unfold RecPreserve stepEOne
  dsimp only
  split
  · exact tasksPreserve_refl _
  · split
    · exact tasksPreserve_refl _
    · exact tasksPreserve_refl _

theorem stepFOne_preserve (gws : List GwSession) (activeSnapshot : List DbSession)
    (inProg : List DbTask) (nowIso : String) (st : RecState) (a : DbAgent) :
    RecPreserve st (stepFOne gws activeSnapshot inProg nowIso st a) := by
  unfold RecPreserve stepFOne
  dsimp only
  split
  · exact tasksPreserve_refl _
  · exact tasksPreserve_refl _

theorem recPreserve_refl (a : RecState) : RecPreserve a a := tasksPreserve_refl _

theorem recPreserve_trans (a b c : RecState) (h1 : RecPreserve a b) (h2 : RecPreserve b c) :
    RecPreserve a c := tasksPreserve_trans h1 h2

theorem runTransaction_preserve (gws : List GwSession) (activeSnapshot : List DbSession)
    (inProg : List DbTask) (working : List DbAgent) (nowIso : String) (st0 : RecState) :
    RecPreserve st0 (runTransaction gws activeSnapshot inProg working nowIso st0) := by
  unfold runTransaction
  refine recPreserve_trans _ _ _ ?_ (foldl_rel RecPreserve _ recPreserve_refl
    recPreserve_trans (fun b x => stepFOne_preserve gws activeSnapshot inProg nowIso b x) _ _)
  refine recPreserve_trans _ _ _ ?_ (foldl_rel RecPreserve _ recPreserve_refl
    recPreserve_trans (fun b x => stepEOne_preserve inProg nowIso b x) _ _)
  refine recPreserve_trans _ _ _ ?_ (foldl_rel RecPreserve _ recPreserve_refl
    recPreserve_trans (fun b x => stepDOne_preserve gws activeSnapshot nowIso b x) _ _)
  exact foldl_rel RecPreserve _ recPreserve_refl recPreserve_trans
    (fun b x => stepCOne_preserve gws nowIso b x) _ _

theorem reconcileBody_preserve (lastRunAt : Int) (cached : Option ReconcileResult)
    (gateway : Except String (List GwSession)) (txError : Option String)
    (nowIso : String) (endNow : Int) (db : Db) (out : ReconcileOutcome)
    (h : reconcileBody lastRunAt cached gateway txError nowIso endNow db = .ok out) :
    TasksPreserve db.tasks out.db.tasks := by
  unfold reconcileBody at h
  cases gateway with
  | error msg => cases h; exact tasksPreserve_refl _
  | ok gws =>
    cases txError with
    | some e => cases h
    | none =>
      cases h
      exact runTransaction_preserve gws _ _ _ nowIso { db := db, result := initResult, notify := [] }

/-- A call that performed a full pass (`ran = true`) stored its own result
in the debounce cache and stamped `lastRunAt` with the completion time. -/
theorem fullRun_updates_cache (now lastRunAt : Int) (cached : Option ReconcileResult)
    (gateway : Except String (List GwSession)) (txError : Option String)
    (nowIso : String) (endNow : Int) (db : Db) (out : ReconcileOutcome)
    (h : reconcile now lastRunAt cached gateway txError nowIso endNow db = .ok out)
    (hran : out.result.ran = true) :
    out.cached = some out.result ∧ out.lastRunAt = endNow := by
  unfold reconcile at h
  have hbody : ∀ c, reconcileBody lastRunAt c gateway txError nowIso endNow db = .ok out →
      out.cached = some out.result ∧ out.lastRunAt = endNow := by
    intro c hb
    unfold reconcileBody at hb
    cases gateway with
    | error msg => cases hb; cases hran
    | ok gws =>
      cases txError with
      | some e => cases hb
      | none => cases hb; exact ⟨rfl, rfl⟩
  cases cached with
  | none => exact hbody none h
  | some c =>
    dsimp only at h
    by_cases hlt : now - lastRunAt < 30000
    · rw [if_pos hlt] at h
      cases h
      cases hran
    · rw [if_neg hlt] at h
      exact hbody (some c) h

/-! ## Claim theorems -/

/-- C1: with the gateway session list empty, the local store holding exactly
one active session `S` linked to task `T` (no dispatch-error yet) and agent
`A` `working`, a single `reconcile()` call returns
`{ran:true, sessionsEnded:1, tasksErrored:1, agentsReset:1, sessionsBackfilled:0}`,
marks `S` ended with a timestamp, writes `T`'s dispatch-error, and resets
`A` to standby. -/
theorem c1_end_to_end_scenario :
    reconcile 100000 0 none (.ok []) none iso0 100500 dbC1 =
      .ok { result := { ran := true, sessionsEnded := 1, tasksErrored := 1,
                        agentsReset := 1, sessionsBackfilled := 0, error := none },
            db := { sessions := [{ sessC1 with
                                   status := "ended",
                                   ended_at := some iso0,
                                   updated_at := iso0 }],
                    tasks := [{ taskC1 with
                                dispatch_error := some sessionLostMsg,
                                updated_at := iso0 }],
                    agents := [{ agentC1 with status := "standby", updated_at := iso0 }] },
            broadcasts := [{ taskC1 with
                             dispatch_error := some sessionLostMsg,
                             updated_at := iso0 }],
            lastRunAt := 100500,
            cached := some { ran := true, sessionsEnded := 1, tasksErrored := 1,
                             agentsReset := 1, sessionsBackfilled := 0, error := none },
            fetchedGateway := true } := rfl

/-- C2 counterexample: an error raised by the local-store transaction is not
caught by `reconcile()` (its only `try/catch` wraps the gateway fetch), so
this execution ends in a propagated error, not a structured
`ReconcileResult`. -/
theorem c2_transaction_error_escapes_cex :
    reconcile 100000 0 none (.ok []) (some "database is locked") iso0 100500 dbC1 =
      .error "database is locked" := rfl

/-- C2 amended: on any gateway fetch failure `reconcile()` returns the
structured `{ran:false, error}` result before the transaction, with nothing
written to the store and the debounce cache untouched; but an error raised
during the local-store transaction propagates out of `reconcile()`
uncaught (the transaction itself rolls back all-or-nothing). -/
theorem c2_failure_semantics (now lastRunAt endNow : Int) (cached : Option ReconcileResult)
    (nowIso : String) (db : Db)
    (hnd : cached = none ∨ 30000 ≤ now - lastRunAt) :
    (∀ msg txe, reconcile now lastRunAt cached (.error msg) txe nowIso endNow db =
        .ok { result := { initResult with ran := false, error := some msg }, db := db,
              broadcasts := [], lastRunAt := lastRunAt, cached := cached,
              fetchedGateway := true }) ∧
    (∀ gws e, reconcile now lastRunAt cached (.ok gws) (some e) nowIso endNow db =
        .error e) := by
  have hskip : ∀ (g : Except String (List GwSession)) (txe : Option String),
      reconcile now lastRunAt cached g txe nowIso endNow db =
        reconcileBody lastRunAt cached g txe nowIso endNow db := by
    intro g txe
    unfold reconcile
    cases cached with
    | none => rfl
    | some c =>
      dsimp only
      rw [if_neg]
      intro hlt
      cases hnd with
      | inl hc => cases hc
      | inr hge => omega
  constructor
  · intro msg txe
    rw [hskip]
    rfl
  · intro gws e
    rw [hskip]
    rfl

/-- C2 witness for the amended theorem: a concrete gateway-refused call
returns the structured error result, and a concrete transaction failure
propagates. -/
theorem c2_failure_semantics_witness :
    (reconcile 5 0 none (.error "ECONNREFUSED") none iso0 6 dbEmpty =
      .ok { result := { initResult with ran := false, error := some "ECONNREFUSED" },
            db := dbEmpty, broadcasts := [], lastRunAt := 0, cached := none,
            fetchedGateway := true }) ∧
    (reconcile 5 0 none (.ok []) (some "boom") iso0 6 dbEmpty = .error "boom") :=
  ⟨(c2_failure_semantics 5 0 6 none iso0 dbEmpty (Or.inl rfl)).1 "ECONNREFUSED" none,
   (c2_failure_semantics 5 0 6 none iso0 dbEmpty (Or.inl rfl)).2 [] "boom"⟩

/-- C6: a dispatch-error already present on a task row survives any
`reconcile()` call unchanged, row by row — reconciliation never overwrites
or clears an existing error, it only sets errors on rows whose error is
null. -/
theorem c6_dispatch_error_never_overwritten (now lastRunAt endNow : Int)
    (cached : Option ReconcileResult) (gateway : Except String (List GwSession))
    (txError : Option String) (nowIso : String) (db : Db) (out : ReconcileOutcome)
    (h : reconcile now lastRunAt cached gateway txError nowIso endNow db = .ok out) :
    TasksPreserve db.tasks out.db.tasks := by
  unfold reconcile at h
  cases cached with
  | none => exact reconcileBody_preserve _ _ _ _ _ _ _ _ h
  | some c =>
    dsimp only at h
    by_cases hlt : now - lastRunAt < 30000
    · rw [if_pos hlt] at h
      cases h
      exact tasksPreserve_refl _
    · rw [if_neg hlt] at h
      exact reconcileBody_preserve _ _ _ _ _ _ _ _ h

/-- C6 witness: a full pass over a store holding a task whose error is
already `"boom"` preserves that row. -/
theorem c6_dispatch_error_never_overwritten_witness :
    (reconcile 100000 0 none (.ok []) none iso0 100500 dbW6 = .ok outW6) ∧
    TasksPreserve dbW6.tasks outW6.db.tasks :=
  ⟨rfl,
   c6_dispatch_error_never_overwritten 100000 0 100500 none (.ok []) none iso0 dbW6 outW6
     rfl⟩

/-- C8: after a completed full run, any `reconcile()` call starting less
than 30 seconds later returns that run's cached result with `ran := false`,
leaves the store untouched, broadcasts nothing, and never reaches the
gateway fetch — independent of the gateway's state and of any transaction
fault in the second call, so all callers inside the window get the same
stale cached answer. -/
theorem c8_debounce_returns_cached (now1 lastRunAt1 endNow1 now2 endNow2 : Int)
    (cached1 : Option ReconcileResult) (g1 g2 : Except String (List GwSession))
    (tx1 tx2 : Option String) (iso1 iso2 : String) (db1 db2 : Db)
    (out1 : ReconcileOutcome)
    (h1 : reconcile now1 lastRunAt1 cached1 g1 tx1 iso1 endNow1 db1 = .ok out1)
    (hran : out1.result.ran = true)
    (hwin : now2 - out1.lastRunAt < 30000) :
    reconcile now2 out1.lastRunAt out1.cached g2 tx2 iso2 endNow2 db2 =
      .ok { result := { out1.result with ran := false }, db := db2, broadcasts := [],
            lastRunAt := out1.lastRunAt, cached := some out1.result,
            fetchedGateway := false } := by
  obtain ⟨hc, -⟩ := fullRun_updates_cache now1 lastRunAt1 cached1 g1 tx1 iso1 endNow1 db1
    out1 h1 hran
  rw [hc]
  unfold reconcile
  dsimp only
  rw [if_pos hwin]

/-- C8 witness: a full run over the empty store followed 100 ms later by a
second call that would have seen a dead gateway and a failing transaction
still returns the cached result with `ran := false`. -/
theorem c8_debounce_returns_cached_witness :
    (reconcile 100000 0 none (.ok []) none iso0 100500 dbEmpty = .ok out8) ∧
    out8.result.ran = true ∧ (100600 : Int) - out8.lastRunAt < 30000 ∧
    reconcile 100600 out8.lastRunAt out8.cached (.error "gateway down") (some "tx fault")
        "iso2" 100700 dbC1 =
      .ok { result := { out8.result with ran := false }, db := dbC1, broadcasts := [],
            lastRunAt := out8.lastRunAt, cached := some out8.result,
            fetchedGateway := false } :=
  ⟨rfl, rfl, by decide,
   c8_debounce_returns_cached 100000 0 100500 100600 100700 none (.ok [])
     (.error "gateway down") none (some "tx fault") iso0 "iso2" dbEmpty dbC1 out8
     rfl rfl (by decide)⟩

/-- C4 counterexample: agent `A` has two in_progress tasks, yet the
reconcile pass still backfills its pointerless active session — with the
first task found — and increments `sessionsBackfilled`, where the claim
demands the pointer stay unchanged and the counter stay 0 when more than
one such task exists. -/
theorem c4_two_tasks_still_backfilled_cex :
    (reconcile 100000 0 none (.ok [gwC4]) none iso0 100500 dbC4).toOption.map
        (fun o => (o.result.sessionsBackfilled, o.db.sessions.map (fun s => s.task_id))) =
      some (1, [some "T1"]) := by
  decide

/-- C4 amended: the backfill step fills a pointerless active session with
the FIRST of its agent's in_progress/assigned tasks in snapshot order
whenever at least one exists (even if several do), incrementing
`sessionsBackfilled`; only when the agent has no such task is the session
left unchanged. -/
theorem c4_backfill_takes_first_match (inProg : List DbTask) (nowIso : String)
    (st : RecState) (s : DbSession) (hmiss : truthyStr s.task_id = false) :
    (inProg.find? (fun t => t.assigned_agent_id == some s.agent_id) = none →
      stepEOne inProg nowIso st s = st) ∧
    (∀ t, inProg.find? (fun t => t.assigned_agent_id == some s.agent_id) = some t →
      stepEOne inProg nowIso st s =
        { st with
          db := backfillTask st.db s.id t.id nowIso,
          result := { st.result with
                      sessionsBackfilled := st.result.sessionsBackfilled + 1 } }) := by
  constructor
  · intro hnone
    unfold stepEOne
    rw [hmiss, hnone]
    rfl
  · intro t hsome
    unfold stepEOne
    rw [hmiss, hsome]
    rfl

/-- C4 witness for the amended theorem: with two candidate tasks the step
rewrites the session pointer to the first one and bumps the counter. -/
theorem c4_backfill_takes_first_match_witness :
    truthyStr sessC4.task_id = false ∧
    [t41, t42].find? (fun t => t.assigned_agent_id == some sessC4.agent_id) = some t41 ∧
    stepEOne [t41, t42] iso0 stW4 sessC4 =
      { stW4 with
        db := backfillTask stW4.db sessC4.id t41.id iso0,
        result := { stW4.result with
                    sessionsBackfilled := stW4.result.sessionsBackfilled + 1 } } :=
  ⟨rfl, by decide,
   (c4_backfill_takes_first_match [t41, t42] iso0 stW4 sessC4 rfl).2 t41 (by decide)⟩

/-- C5, evaluated at the failing input: one stale session linked to the
in_progress task `T` of its working agent.  Only one new dispatch-error is
written (to `T`), yet `tasksErrored` ends at 2 and the task-updated
broadcast for `T` is emitted twice — step D's snapshot check cannot see the
error step C just wrote, contradicting the claim (and the code's own
"Already has an error from step C? Skip." comment). -/
theorem c5_task_counted_and_broadcast_twice :
    (reconcile 100000 0 none (.ok []) none iso0 100500 dbC5).toOption.map
        (fun o => (o.result.tasksErrored, o.broadcasts.map (fun t => t.id),
                   o.db.tasks.map (fun t => t.dispatch_error))) =
      some (2, ["T", "T"], [some sessionLostMsg]) := by
  decide

/-- A handler invocation other than `onopen`/`onclose`/`onerror` leaves the
10-second connection timer as it was — only those three clear it. -/
theorem connStep_preserves_timer (st : ConnAttempt) (e : CEv)
    (h1 : e ≠ CEv.sockOpen) (h2 : e ≠ CEv.sockClose) (h3 : e ≠ CEv.sockError) :
    (connStep st e).timerArmed = st.timerArmed := by
  cases e with
  | sockOpen => exact absurd rfl h1
  | sockClose => exact absurd rfl h2
  | sockError => exact absurd rfl h3
  | challenge => rfl
  | authOk =>
    simp only [connStep, settleRes]
    split
    · split
      · rfl
      · rfl
    · rfl
  | authErr msg =>
    simp only [connStep, settleRej]
    split
    · split
      · rfl
      · rfl
    · rfl

/-- Events that are not socket-lifecycle callbacks leave the 10-second
connection timer armed (only `onopen`/`onclose`/`onerror` clear it). -/
theorem runEvents_timer_stays_armed (evs : List CEv)
    (hevs : ∀ e ∈ evs, e ≠ CEv.sockOpen ∧ e ≠ CEv.sockClose ∧ e ≠ CEv.sockError) :
    ∀ st : ConnAttempt, st.timerArmed = true → (runEvents st evs).timerArmed = true := by
  induction evs with
  | nil => intro st h; exact h
  | cons e evs ih =>
    intro st h
    have he := hevs e (List.mem_cons_self e evs)
    have hrest : ∀ e ∈ evs, e ≠ CEv.sockOpen ∧ e ≠ CEv.sockClose ∧ e ≠ CEv.sockError :=
      fun x hx => hevs x (List.mem_cons_of_mem e hx)
    refine ih hrest (connStep st e) ?_
    rw [connStep_preserves_timer st e he.1 he.2.1 he.2.2]
    exact h

/-- C3 counterexample: the socket opens within the 10-second window but no
challenge or authentication response ever arrives; because `onopen` already
ran `clearTimeout(connectionTimeout)`, the 10-second mark changes nothing —
authentication has not completed, yet the promise stays pending and the
socket is never force-closed, against the claim's demanded timeout
rejection. -/
theorem c3_open_without_auth_never_times_out_cex :
    (runEvents connInit [CEv.sockOpen]).connected = false ∧
    (runEvents connInit [CEv.sockOpen]).authenticated = false ∧
    fireTimer (runEvents connInit [CEv.sockOpen]) = runEvents connInit [CEv.sockOpen] ∧
    (fireTimer (runEvents connInit [CEv.sockOpen])).settled = none ∧
    (fireTimer (runEvents connInit [CEv.sockOpen])).socketClosed = false := by
  decide

/-- C3 amended: the 10-second timer bounds the attempt only while no socket
open/close/error callback has run.  If by the 10-second mark only
message-handler events occurred, authentication has not completed and the
promise is unsettled, the timer force-closes the socket and rejects with
the timeout error; once the socket opens, the timer is cleared and an
attempt stuck awaiting the challenge or the auth response never times
out. -/
theorem c3_timeout_covers_only_presocket_phase (evs : List CEv)
    (hevs : ∀ e ∈ evs, e ≠ CEv.sockOpen ∧ e ≠ CEv.sockClose ∧ e ≠ CEv.sockError)
    (hconn : (runEvents connInit evs).connected = false)
    (hunset : (runEvents connInit evs).settled = none) :
    (fireTimer (runEvents connInit evs)).settled = some (some "Connection timeout") ∧
    (fireTimer (runEvents connInit evs)).socketClosed = true := by
  have harm := runEvents_timer_stays_armed evs hevs connInit rfl
  unfold fireTimer
  rw [harm, hconn]
  simp only [Bool.not_false, if_true]
  unfold settleRej
  simp only [hunset]
  exact ⟨rfl, rfl⟩

/-- C3 witness for the amended theorem: only the challenge arrived before
the 10-second mark, so the timer fires, closes the socket and rejects. -/
theorem c3_timeout_covers_only_presocket_phase_witness :
    ((runEvents connInit [CEv.challenge]).connected = false ∧
     (runEvents connInit [CEv.challenge]).settled = none) ∧
    (fireTimer (runEvents connInit [CEv.challenge])).settled =
      some (some "Connection timeout") ∧
    (fireTimer (runEvents connInit [CEv.challenge])).socketClosed = true :=
  ⟨⟨rfl, rfl⟩,
   c3_timeout_covers_only_presocket_phase [CEv.challenge] (by decide) rfl rfl⟩

/-- Reduction of `handleMessage` on a `res` frame: the literal parts of the
frame compute away, leaving the pending-table membership test. -/
theorem handleMessage_resFrame_red (st : RpcState) (id : String) (okv : Option Bool)
    (ev p r : Option String) :
    handleMessage st (mkResFrame id okv ev p r) =
      (if id ∈ st.pendingRequests then
        (if (okv == some false && ev.isSome) = true then
          ({ pendingRequests := st.pendingRequests.erase id },
           [Action.reject id (ev.getD "")])
        else ({ pendingRequests := st.pendingRequests.erase id },
              [Action.resolve id p]))
      else legacyAndNotify st (mkResFrame id okv ev p r)) := rfl

/-- Reduction of the legacy fall-through on a `res` frame: a second
membership test, then the notification branch, which is silent because the
frame has no `method`. -/
theorem legacyAndNotify_resFrame_red (st : RpcState) (id : String) (okv : Option Bool)
    (ev p r : Option String) :
    legacyAndNotify st (mkResFrame id okv ev p r) =
      (if id ∈ st.pendingRequests then
        (if ev.isSome = true then
          ({ pendingRequests := st.pendingRequests.erase id },
           [Action.reject id (ev.getD "")])
        else ({ pendingRequests := st.pendingRequests.erase id },
              [Action.resolve id r]))
      else (st, [])) := rfl

/-- C7: the pending-request entry registered by `call()` is removed exactly
once.  A `res` frame with a matching id removes the entry and settles
exactly one request; a second frame with the same id is a no-op; the
30-second timeout removes the entry and rejects with an error naming the
method, after which the id is gone from the table; and a timeout firing
after the response already settled the entry is a no-op. -/
theorem c7_pending_request_removed_exactly_once (st : RpcState) (id method : String)
    (okv : Option Bool) (ev p r : Option String)
    (hmem : id ∈ st.pendingRequests) (hnd : st.pendingRequests.Nodup) :
    (∀ st0 : RpcState, callStart true true true st0 id =
        .ok { pendingRequests := st0.pendingRequests ++ [id] }) ∧
    ((handleMessage st (mkResFrame id okv ev p r)).1.pendingRequests =
        st.pendingRequests.erase id ∧
      id ∉ (handleMessage st (mkResFrame id okv ev p r)).1.pendingRequests ∧
      (∃ a, (handleMessage st (mkResFrame id okv ev p r)).2 = [a] ∧
        settleTarget a = some id)) ∧
    (∀ st0 : RpcState, id ∉ st0.pendingRequests →
      handleMessage st0 (mkResFrame id okv ev p r) = (st0, [])) ∧
    (requestTimeout st id method =
        ({ pendingRequests := st.pendingRequests.erase id },
         [Action.reject id ("Request timeout: " ++ method)]) ∧
      id ∉ (requestTimeout st id method).1.pendingRequests) ∧
    (∀ st0 : RpcState, id ∉ st0.pendingRequests → requestTimeout st0 id method = (st0, [])) := by
  have hne : id ∉ st.pendingRequests.erase id := hnd.not_mem_erase
  refine ⟨fun st0 => rfl, ⟨?_, ?_, ?_⟩, ?_, ⟨?_, ?_⟩, ?_⟩
  · rw [handleMessage_resFrame_red, if_pos hmem]
    split
    · rfl
    · rfl
  · rw [handleMessage_resFrame_red, if_pos hmem]
    split
    · exact hne
    · exact hne
  · rw [handleMessage_resFrame_red, if_pos hmem]
    split
    · exact ⟨_, rfl, rfl⟩
    · exact ⟨_, rfl, rfl⟩
  · intro st0 hno
    rw [handleMessage_resFrame_red, if_neg hno, legacyAndNotify_resFrame_red, if_neg hno]
  · unfold requestTimeout
    rw [if_pos hmem]
  · unfold requestTimeout
    rw [if_pos hmem]
    exact hne
  · intro st0 hno
    unfold requestTimeout
    rw [if_neg hno]

/-- C7 witness: a two-entry table, a response settling id `a`, a replay
after removal, and the timeout paths, all at concrete values. -/
theorem c7_pending_request_removed_exactly_once_witness :
    ("a" ∈ rpcW.pendingRequests ∧ rpcW.pendingRequests.Nodup) ∧
    (handleMessage rpcW (mkResFrame "a" none none (some "ok") none)).1.pendingRequests =
      rpcW.pendingRequests.erase "a" ∧
    handleMessage rpcDoneW (mkResFrame "a" none none (some "ok") none) = (rpcDoneW, []) ∧
    requestTimeout rpcW "a" "sessions.list" =
      ({ pendingRequests := rpcW.pendingRequests.erase "a" },
       [Action.reject "a" ("Request timeout: " ++ "sessions.list")]) ∧
    requestTimeout rpcDoneW "a" "sessions.list" = (rpcDoneW, []) := by
  have h := c7_pending_request_removed_exactly_once rpcW "a" "sessions.list" none none
    (some "ok") none (by decide) (by decide)
  exact ⟨⟨by decide, by decide⟩, h.2.1.1, h.2.2.1 rpcDoneW (by decide), h.2.2.2.1.1,
    h.2.2.2.2 rpcDoneW (by decide)⟩

/-- C9: while disconnected, a burst of `connect()` calls opens exactly one
socket — the first caller starts the attempt, every later caller joins the
same in-flight attempt (sharing its promise and therefore its outcome);
any call made while an attempt is in flight joins it instead of starting a
new one, and a call while connected with an OPEN socket returns
immediately. -/
theorem c9_connect_single_socket_shared_outcome :
    (∀ (st : ConnLock) (n : Nat), st.connected = false → st.connecting = none →
      (connectSeq st (n + 1)).2 =
          ConnectRet.started st.nextAttemptId ::
            List.replicate n (ConnectRet.joined st.nextAttemptId) ∧
        (connectSeq st (n + 1)).1.socketsOpened = st.socketsOpened + 1) ∧
    (∀ (st : ConnLock) (k : Nat), st.connected = false → st.connecting = some k →
      connectCall st = (st, ConnectRet.joined k)) ∧
    (∀ st : ConnLock, st.connected = true → st.wsOpen = true →
      connectCall st = (st, ConnectRet.immediate)) := by
  have hjoin : ∀ (st : ConnLock) (k : Nat), st.connected = false → st.connecting = some k →
      connectCall st = (st, ConnectRet.joined k) := by
    intro st k hc hk
    unfold connectCall
    rw [hc, hk]
    rfl
  have hseq : ∀ (n : Nat) (st : ConnLock) (k : Nat), st.connected = false →
      st.connecting = some k → connectSeq st n = (st, List.replicate n (ConnectRet.joined k)) := by
    intro n
    induction n with
    | zero => intro st k _ _; rfl
    | succ m ih =>
      intro st k hc hk
      unfold connectSeq
      dsimp only
      rw [hjoin st k hc hk]
      dsimp only
      rw [ih st k hc hk]
      rfl
  refine ⟨?_, hjoin, ?_⟩
  · intro st n hc hno
    have hfirst : connectCall st =
        ({ st with
            connecting := some st.nextAttemptId,
            socketsOpened := st.socketsOpened + 1,
            nextAttemptId := st.nextAttemptId + 1 },
          ConnectRet.started st.nextAttemptId) := by
      unfold connectCall
      rw [hc, hno]
      rfl
    have hrest := hseq n
      { st with
        connecting := some st.nextAttemptId,
        socketsOpened := st.socketsOpened + 1,
        nextAttemptId := st.nextAttemptId + 1 }
      st.nextAttemptId hc rfl
    constructor
    · show (connectSeq st (n + 1)).2 = _
      unfold connectSeq
      dsimp only
      rw [hfirst]
      dsimp only
      rw [hrest]
    · show (connectSeq st (n + 1)).1.socketsOpened = _
      unfold connectSeq
      dsimp only
      rw [hfirst]
      dsimp only
      rw [hrest]
  · intro st hc hw
    unfold connectCall
    rw [hc, hw]
    rfl

/-- C9 witness: three concurrent calls from a disconnected client open one
socket and return `started 7, joined 7, joined 7`; an in-flight call joins;
a connected call returns immediately. -/
theorem c9_connect_single_socket_shared_outcome_witness :
    (stW9.connected = false ∧ stW9.connecting = none) ∧
    (connectSeq stW9 3).2 =
      [ConnectRet.started 7, ConnectRet.joined 7, ConnectRet.joined 7] ∧
    (connectSeq stW9 3).1.socketsOpened = 1 ∧
    connectCall { stW9 with connecting := some 7 } =
      ({ stW9 with connecting := some 7 }, ConnectRet.joined 7) ∧
    connectCall { stW9 with connected := true, wsOpen := true } =
      ({ stW9 with connected := true, wsOpen := true }, ConnectRet.immediate) := by
  have h := c9_connect_single_socket_shared_outcome
  have h1 := h.1 stW9 2 rfl rfl
  exact ⟨⟨rfl, rfl⟩, h1.1, h1.2, h.2.1 { stW9 with connecting := some 7 } 7 rfl rfl,
    h.2.2 { stW9 with connected := true, wsOpen := true } rfl rfl⟩

/-- C10: a `res` frame whose id matches a pending request with `ok: false`
but no `error` object resolves the call with the frame's payload — the
reject path requires both `ok === false` and a present `error`. -/
theorem c10_res_false_without_error_resolves (st : RpcState) (id : String)
    (p r : Option String) (hmem : id ∈ st.pendingRequests) :
    handleMessage st (mkResFrame id (some false) none p r) =
      ({ pendingRequests := st.pendingRequests.erase id }, [Action.resolve id p]) := by
  rw [handleMessage_resFrame_red, if_pos hmem]
  rfl

/-- C10 witness: at a concrete table, the `ok:false`-without-`error` frame
resolves with its (undefined-able) payload. -/
theorem c10_res_false_without_error_resolves_witness :
    ("a" ∈ rpcW.pendingRequests) ∧
    handleMessage rpcW (mkResFrame "a" (some false) none none none) =
      ({ pendingRequests := rpcW.pendingRequests.erase "a" }, [Action.resolve "a" none]) :=
  ⟨by decide, c10_res_false_without_error_resolves rpcW "a" none none (by decide)⟩

end MissionControl
